import Mathlib

/-!
Verification development for the `cameras3` video-surveillance repository.

The repository ships a React frontend (`Dashboard.jsx`, `Settings.jsx`,
`CameraSettingsDialog.jsx`, `CameraView`, `Recordings`) that drives a
camera-supervision backend.  The frontend components are embedded directly
from their source; the backend pipeline components (CameraSupervisor,
PreRollBuffer, MotionDetector, RecordingController) are not part of the
shipped sources and are modelled from the specification, as marked on each
such definition.
-/

namespace Cameras3

/-! ## Dashboard.jsx: add-camera form -/

/-- The add-camera form state, from `Dashboard.jsx` lines 22-27
(`newCamera = { name, url, username, password }`). -/
structure NewCameraForm where
  name : String
  url : String
  username : String
  password : String
deriving DecidableEq, Repr

/-- Outcome of submitting the add-camera form. -/
inductive AddOutcome where
  | validationError
  | submitted
deriving DecidableEq, Repr

/-- The `handleAddCamera` handler, `Dashboard.jsx` lines 60-75: when the
name or the URL field is falsy (empty string) it shows a validation error
and returns without issuing the POST; otherwise it POSTs the form.  The
first component is the list of create requests issued. -/
def handleAddCamera (form : NewCameraForm) : List NewCameraForm × AddOutcome :=
  if form.name = "" || form.url = "" then ([], .validationError)
  else ([form], .submitted)

/-- Effect of a batch of create requests on the server-side camera list:
each issued request appends one camera. -/
def serverCamerasAfter (cams : List NewCameraForm) (reqs : List NewCameraForm) :
    List NewCameraForm :=
  cams ++ reqs

/-- The add-camera button's disabled predicate, `Dashboard.jsx` line 120
(`disabled={cameras.length >= 20}`). -/
def addCameraButtonDisabled {α : Type} (cameras : List α) : Bool :=
  decide (20 ≤ cameras.length)

/-- The status badge chosen for a camera card, `Dashboard.jsx` lines 187-197. -/
def statusBadgeClass (status : String) : String :=
  if status = "active" then "status-active"
  else if status = "error" then "status-error"
  else "status-inactive"

/-! ## CameraSupervisor (modelled from the spec)

The backend supervisor is not among the shipped sources; the definitions in
this section are modelled from spec sections 4.6 and 7. -/

/-- Modelled from the spec: the upper bound on concurrently running cameras
enforced by the CameraSupervisor (spec section 4.6: "Enforces an upper bound
on concurrently running cameras (20)"), matching the frontend gate
`cameras.length >= 20` in `Dashboard.jsx`. -/
def maxCameras : Nat := 20

/-- Modelled from the spec: a camera as tracked by the supervisor, with its
exposed runtime status string (spec section 6: "camera runtime status
(`active|inactive|error`) per camera"). -/
structure SupCamera where
  id : Nat
  status : String
deriving DecidableEq, Repr

/-- Modelled from the spec: supervisor state, owning the camera table and
the single globally active performance profile (spec sections 3 and 4.6). -/
structure Supervisor where
  cameras : List SupCamera
  profile : String
deriving DecidableEq, Repr

/-- Modelled from the spec: the error taxonomy entry for the camera limit
(spec section 7: "`CapacityError` (camera limit reached) — rejected
synchronously at `add` time, no partial state created"). -/
inductive SupError where
  | capacityError
deriving DecidableEq, Repr

/-- Modelled from the spec: `add(camera)` on the supervisor; rejects with a
capacity error when the bound is reached, otherwise appends the camera with
status `inactive` (spec section 4.6). -/
def Supervisor.add (s : Supervisor) (id : Nat) : Except SupError Supervisor :=
  if maxCameras ≤ s.cameras.length then .error .capacityError
  else .ok { s with cameras := s.cameras ++ [⟨id, "inactive"⟩] }

/-- The supervisor state after an `add` call: unchanged when the call was
rejected. -/
def Supervisor.addState (s : Supervisor) (id : Nat) : Supervisor :=
  match s.add id with
  | .ok s' => s'
  | .error _ => s

/-- Modelled from the spec: overwrite the status of one camera (status
transitions of spec sections 4.1 and 7). -/
def Supervisor.setStatus (s : Supervisor) (id : Nat) (st : String) : Supervisor :=
  { s with cameras := s.cameras.map (fun c => if c.id = id then ⟨c.id, st⟩ else c) }

/-- Modelled from the spec: the operations of the CameraSupervisor interface
(spec section 4.6: `add`, `remove`, `setProfile`) together with the runtime
status transitions (start, failure, disable; spec sections 4.1 and 7). -/
inductive SupOp where
  | addCam (id : Nat)
  | removeCam (id : Nat)
  | startCam (id : Nat)
  | failCam (id : Nat)
  | disableCam (id : Nat)
  | setProfile (p : String)
deriving DecidableEq, Repr

/-- Modelled from the spec: one supervisor transition. -/
def Supervisor.step (s : Supervisor) : SupOp → Supervisor
  | .addCam id => s.addState id
  | .removeCam id => { s with cameras := s.cameras.filter (fun c => c.id ≠ id) }
  | .startCam id => s.setStatus id "active"
  | .failCam id => s.setStatus id "error"
  | .disableCam id => s.setStatus id "inactive"
  | .setProfile p => { s with profile := p }

/-- Modelled from the spec: initial supervisor state (no cameras, the
default profile selected). -/
def supervisorInit : Supervisor := ⟨[], "balanced"⟩

/-- Run a sequence of supervisor operations from the initial state. -/
def runSupervisor (ops : List SupOp) : Supervisor :=
  ops.foldl Supervisor.step supervisorInit

/-- Modelled from the spec: the profile in force for a camera is the single
global profile (spec section 3: "Global ... applies to all cameras"). -/
def Supervisor.effectiveProfile (s : Supervisor) (c : SupCamera) : String :=
  s.profile

/-! ## Generic fold invariant -/

/-- An invariant preserved by every step of a fold holds of the fold. -/
theorem foldl_inv {α σ : Type} (P : σ → Prop) (f : σ → α → σ)
    (hstep : ∀ s a, P s → P (f s a)) :
    ∀ (l : List α) (s : σ), P s → P (l.foldl f s) := by
  intro l
  induction l with
  | nil => intro s hs; exact hs
  | cons a l ih => intro s hs; exact ih (f s a) (hstep s a hs)

/-! ## Claims C1, C5, C9 -/

/-- Claim C1: with 20 cameras already held, an add call is rejected with a
capacity error, the camera count stays 20 (no partial state), and the
frontend add button is disabled. -/
theorem c1_add_rejected_at_capacity (s : Supervisor) (id : Nat)
    (h : s.cameras.length = 20) :
    s.add id = .error .capacityError ∧
    (s.addState id).cameras.length = 20 ∧
    addCameraButtonDisabled s.cameras = true := by
  have hmax : maxCameras ≤ s.cameras.length := by simp [maxCameras, h]
  have hadd : s.add id = .error .capacityError := by
    simp [Supervisor.add, hmax]
  refine ⟨hadd, ?_, ?_⟩
  · simp [Supervisor.addState, hadd, h]
  · simp [addCameraButtonDisabled, h]

/-- A concrete supervisor holding 20 cameras. -/
def sup20 : Supervisor :=
  ⟨(List.range 20).map (fun i => ⟨i, "inactive"⟩), "balanced"⟩

/-- Witness for C1 at a concrete 20-camera supervisor. -/
theorem c1_add_rejected_at_capacity_witness :
    sup20.cameras.length = 20 ∧
    (sup20.add 99 = .error .capacityError ∧
     (sup20.addState 99).cameras.length = 20 ∧
     addCameraButtonDisabled sup20.cameras = true) :=
  ⟨by decide, c1_add_rejected_at_capacity sup20 99 (by decide)⟩

/-- The three runtime status strings exposed to collaborators. -/
def allowedStatuses : List String := ["active", "inactive", "error"]

/-- Claim C5: in every supervisor state reachable from the initial state,
every camera's exposed runtime status is one of exactly active, inactive,
error. -/
theorem c5_status_invariant (ops : List SupOp) (c : SupCamera)
    (hc : c ∈ (runSupervisor ops).cameras) :
    c.status ∈ allowedStatuses := by
  have key : ∀ c' ∈ (runSupervisor ops).cameras, c'.status ∈ allowedStatuses := by
    refine foldl_inv (fun s => ∀ c' ∈ s.cameras, c'.status ∈ allowedStatuses)
      Supervisor.step ?_ ops supervisorInit ?_
    · intro s op hs
      cases op with
      | addCam id =>
          intro c' hc'
          simp only [Supervisor.step, Supervisor.addState, Supervisor.add] at hc'
          by_cases hlen : maxCameras ≤ s.cameras.length
          · simp [hlen] at hc'
            exact hs c' hc'
          · simp [hlen, List.mem_append] at hc'
            rcases hc' with hc' | hc'
            · exact hs c' hc'
            · subst hc'; simp [allowedStatuses]
      | removeCam id =>
          intro c' hc'
          simp only [Supervisor.step, List.mem_filter] at hc'
          exact hs c' hc'.1
      | startCam id =>
          intro c' hc'
          simp only [Supervisor.step, Supervisor.setStatus, List.mem_map] at hc'
          rcases hc' with ⟨c₀, hc₀, hmap⟩
          by_cases hid : c₀.id = id
          · simp [hid] at hmap
            subst hmap; simp [allowedStatuses]
          · simp [hid] at hmap
            subst hmap; exact hs c₀ hc₀
      | failCam id =>
          intro c' hc'
          simp only [Supervisor.step, Supervisor.setStatus, List.mem_map] at hc'
          rcases hc' with ⟨c₀, hc₀, hmap⟩
          by_cases hid : c₀.id = id
          · simp [hid] at hmap
            subst hmap; simp [allowedStatuses]
          · simp [hid] at hmap
            subst hmap; exact hs c₀ hc₀
      | disableCam id =>
          intro c' hc'
          simp only [Supervisor.step, Supervisor.setStatus, List.mem_map] at hc'
          rcases hc' with ⟨c₀, hc₀, hmap⟩
          by_cases hid : c₀.id = id
          · simp [hid] at hmap
            subst hmap; simp [allowedStatuses]
          · simp [hid] at hmap
            subst hmap; exact hs c₀ hc₀
      | setProfile p =>
          intro c' hc'
          simp only [Supervisor.step] at hc'
          exact hs c' hc'
    · intro c' hc'
      simp [supervisorInit] at hc'
  exact key c hc

/-- Witness for C5: a camera started after being added has status active,
one of the three allowed values. -/
theorem c5_status_invariant_witness :
    (⟨3, "active"⟩ : SupCamera) ∈ (runSupervisor [.addCam 3, .startCam 3]).cameras ∧
    (⟨3, "active"⟩ : SupCamera).status ∈ allowedStatuses :=
  ⟨by decide, c5_status_invariant [.addCam 3, .startCam 3] ⟨3, "active"⟩ (by decide)⟩

/-- Claim C9: an add-camera submission with an empty name or URL issues no
create request, fails with a validation error, and leaves any server camera
list unchanged. -/
theorem c9_empty_fields_no_request (form : NewCameraForm)
    (cams : List NewCameraForm) (h : form.name = "" ∨ form.url = "") :
    handleAddCamera form = ([], .validationError) ∧
    serverCamerasAfter cams (handleAddCamera form).1 = cams := by
  have hcond : (form.name = "" || form.url = "") = true := by
    rcases h with h | h <;> simp [h]
  constructor
  · simp [handleAddCamera, hcond]
  · simp [handleAddCamera, hcond, serverCamerasAfter]

/-- Witness for C9 at a concrete form with an empty name. -/
theorem c9_empty_fields_no_request_witness :
    handleAddCamera ⟨"", "rtsp://cam", "u", "p"⟩ = ([], .validationError) ∧
    serverCamerasAfter [⟨"a", "b", "", ""⟩] (handleAddCamera ⟨"", "rtsp://cam", "u", "p"⟩).1 =
      [⟨"a", "b", "", ""⟩] :=
  c9_empty_fields_no_request ⟨"", "rtsp://cam", "u", "p"⟩ [⟨"a", "b", "", ""⟩] (Or.inl rfl)

/-! ## PreRollBuffer (modelled from the spec) -/

/-- Modelled from the spec: the per-camera PreRollBuffer, "a fixed-length
ring buffer of the most recent N frames, N = `pre_record_seconds ×
target_fps`" (spec section 4.3); the backend component is not among the
shipped sources.  Frames are identified by sequence number, oldest first. -/
structure PreRollBuffer where
  capacity : Nat
  frames : List Nat
deriving DecidableEq, Repr

/-- Modelled from the spec: a fresh buffer for the configured pre-roll
seconds and target fps. -/
def PreRollBuffer.init (preRecordSeconds targetFps : Nat) : PreRollBuffer :=
  ⟨preRecordSeconds * targetFps, []⟩

/-- Modelled from the spec: append one decoded frame, overwriting the
oldest when the buffer is full (spec section 4.3: "Every decoded frame is
appended (overwriting the oldest) regardless of motion state"). -/
def PreRollBuffer.append (b : PreRollBuffer) (f : Nat) : PreRollBuffer :=
  let fs := b.frames ++ [f]
  ⟨b.capacity, fs.drop (fs.length - b.capacity)⟩

/-- Append a whole sequence of decoded frames in order. -/
def PreRollBuffer.appendAll (b : PreRollBuffer) (fs : List Nat) : PreRollBuffer :=
  fs.foldl PreRollBuffer.append b

theorem prb_append_capacity (b : PreRollBuffer) (f : Nat) :
    (b.append f).capacity = b.capacity := rfl

theorem prb_append_length (b : PreRollBuffer) (f : Nat) :
    (b.append f).frames.length = min (b.frames.length + 1) b.capacity := by
  simp [PreRollBuffer.append]
  omega

theorem prb_appendAll_length (fs : List Nat) (b : PreRollBuffer)
    (hb : b.frames.length ≤ b.capacity) :
    (b.appendAll fs).frames.length = min (b.frames.length + fs.length) b.capacity := by
  induction fs generalizing b with
  | nil =>
      simp only [PreRollBuffer.appendAll, List.foldl_nil, List.length_nil, Nat.add_zero]
      omega
  | cons f fs ih =>
      have hstep : (b.append f).frames.length = min (b.frames.length + 1) b.capacity :=
        prb_append_length b f
      have hcap : (b.append f).capacity = b.capacity := rfl
      have hle : (b.append f).frames.length ≤ (b.append f).capacity := by
        rw [hstep, hcap]; omega
      have hrec := ih (b.append f) hle
      simp only [PreRollBuffer.appendAll, List.foldl_cons] at hrec ⊢
      rw [hrec, hstep, hcap, List.length_cons]
      omega

/-- Claim C2: for every configured pre-roll P and fps F, and every sequence
of appended frames, the buffer never holds more than P×F frames, and once
at least P×F frames have been appended (steady state) it holds exactly P×F
frames. -/
theorem c2_preroll_capacity (P F : Nat) (fs : List Nat) :
    ((PreRollBuffer.init P F).appendAll fs).frames.length ≤ P * F ∧
    (P * F ≤ fs.length →
      ((PreRollBuffer.init P F).appendAll fs).frames.length = P * F) := by
  have h := prb_appendAll_length fs (PreRollBuffer.init P F) (by simp [PreRollBuffer.init])
  have hinit1 : (PreRollBuffer.init P F).frames.length = 0 := rfl
  have hinit2 : (PreRollBuffer.init P F).capacity = P * F := rfl
  rw [hinit1, hinit2] at h
  constructor
  · rw [h]; omega
  · intro hsteady; rw [h]; omega

/-- Witness for C2 at P = 2, F = 3 and ten appended frames. -/
theorem c2_preroll_capacity_witness :
    ((PreRollBuffer.init 2 3).appendAll (List.range 10)).frames.length ≤ 2 * 3 ∧
    (2 * 3 ≤ (List.range 10).length ∧
     ((PreRollBuffer.init 2 3).appendAll (List.range 10)).frames.length = 2 * 3) :=
  ⟨(c2_preroll_capacity 2 3 (List.range 10)).1,
   by decide,
   (c2_preroll_capacity 2 3 (List.range 10)).2 (by decide)⟩

/-! ## Settings.jsx: global settings page -/

/-- A performance profile's displayed parameters, `Settings.jsx`
lines 107-128 (`max_resolution_width`, `target_fps`, `jpeg_quality`,
`motion_check_interval`). -/
structure PerformanceProfile where
  max_resolution_width : Nat
  target_fps : Nat
  jpeg_quality : Nat
  motion_check_interval : Nat
deriving DecidableEq, Repr

/-- The settings page state, `Settings.jsx`: the selected
`performance_profile` key, the Telegram fields, the storage path and the
available profiles table fetched from the backend. -/
structure SettingsState where
  performance_profile : String
  telegram_bot_token : String
  telegram_chat_id : String
  default_storage_path : String
  profiles : List (String × PerformanceProfile)
deriving DecidableEq, Repr

/-- The profile select handler, `Settings.jsx` line 92: selecting a profile
overwrites the single `performance_profile` field. -/
def selectProfile (s : SettingsState) (v : String) : SettingsState :=
  { s with performance_profile := v }

/-- The body PUT to `/api/settings` by `handleSave`, `Settings.jsx`
lines 37-42, as its list of key/value pairs. -/
def handleSavePayload (s : SettingsState) : List (String × String) :=
  [("performance_profile", s.performance_profile),
   ("telegram_bot_token", s.telegram_bot_token),
   ("telegram_chat_id", s.telegram_chat_id),
   ("default_storage_path", s.default_storage_path)]

/-- The currently displayed profile, `Settings.jsx` line 61
(`settings.profiles[settings.performance_profile]`). -/
def currentProfile (s : SettingsState) : Option PerformanceProfile :=
  s.profiles.lookup s.performance_profile

/-- Claim C6: saving settings writes a single global `performance_profile`
value — the payload carries the key exactly once, with the selected value,
and never a per-camera one (its keys are exactly the four global settings
keys); the supervisor applies the one global profile to every camera. -/
theorem c6_single_global_profile (s : SettingsState) (v : String) :
    ((handleSavePayload (selectProfile s v)).map Prod.fst).count "performance_profile" = 1 ∧
    (handleSavePayload (selectProfile s v)).lookup "performance_profile" = some v ∧
    (handleSavePayload (selectProfile s v)).map Prod.fst =
      ["performance_profile", "telegram_bot_token", "telegram_chat_id",
       "default_storage_path"] ∧
    (∀ sup : Supervisor, ∀ c ∈ sup.cameras, sup.effectiveProfile c = sup.profile) := by
  refine ⟨?_, ?_, rfl, ?_⟩
  · simp [handleSavePayload, selectProfile, List.count_cons]
  · simp [handleSavePayload, selectProfile, List.lookup]
  · intro sup c _
    rfl

/-- Witness for C6 at a concrete settings state, selection and supervisor. -/
theorem c6_single_global_profile_witness :
    ((handleSavePayload (selectProfile ⟨"balanced", "", "", "/app/recordings", []⟩
        "performance")).map Prod.fst).count "performance_profile" = 1 ∧
    (⟨0, "inactive"⟩ : SupCamera) ∈ sup20.cameras ∧
    sup20.effectiveProfile ⟨0, "inactive"⟩ = sup20.profile :=
  ⟨(c6_single_global_profile ⟨"balanced", "", "", "/app/recordings", []⟩ "performance").1,
   by decide,
   (c6_single_global_profile ⟨"balanced", "", "", "/app/recordings", []⟩ "performance").2.2.2
     sup20 ⟨0, "inactive"⟩ (by decide)⟩

/-! ## Recordings page: record types -/

/-- Modelled from the spec: the record type of a RecordingSegment, spec
section 3 ("record_type ∈ {continuous, motion}"); matches the two recording
triggers of `CameraSettingsDialog.jsx` (`continuous`, `on_motion`). -/
inductive RecordType where
  | continuous
  | motion
deriving DecidableEq, Repr

/-- Modelled from the spec: a recording segment record as exposed to the
recordings list (only the fields the claims need). -/
structure RecordingSegment where
  id : Nat
  camera_id : Nat
  record_type : RecordType
deriving DecidableEq, Repr

/-- The record-type filter options offered by the Recordings page select
(`Settings.jsx` Recordings component, SelectItems all/continuous/motion). -/
def recordTypeFilterOptions : List String := ["all", "continuous", "motion"]

/-- The filter value stored for a selection (`value === "all" ? "" : value`). -/
def recordTypeFilterValue (selected : String) : String :=
  if selected = "all" then "" else selected

/-- The `record_type` query parameter actually sent by `fetchRecordings`:
included only when the stored filter value is truthy (non-empty). -/
def recordTypeParam (filterVal : String) : Option String :=
  if filterVal = "" then none else some filterVal

/-- The badge label for a listed recording (`record_type === 'motion' ?
'По движению' : 'Непрерывная'`). -/
def recordTypeBadge (record_type : String) : String :=
  if record_type = "motion" then "По движению" else "Непрерывная"

/-- Claim C8: every RecordingSegment's record type is one of exactly
continuous and motion, and every record-type filter the Recordings page can
send uses only those two values (or no filter at all). -/
theorem c8_record_type_values (seg : RecordingSegment) (sel : String)
    (hsel : sel ∈ recordTypeFilterOptions) :
    (seg.record_type = .continuous ∨ seg.record_type = .motion) ∧
    (recordTypeParam (recordTypeFilterValue sel) = none ∨
     recordTypeParam (recordTypeFilterValue sel) = some "continuous" ∨
     recordTypeParam (recordTypeFilterValue sel) = some "motion") := by
  constructor
  · cases h : seg.record_type
    · exact Or.inl rfl
    · exact Or.inr rfl
  · simp [recordTypeFilterOptions] at hsel
    rcases hsel with h | h | h <;>
      subst h <;> simp [recordTypeFilterValue, recordTypeParam]

/-- Witness for C8 at a concrete motion segment and the motion filter. -/
theorem c8_record_type_values_witness :
    ((⟨0, 1, .motion⟩ : RecordingSegment).record_type = .continuous ∨
     (⟨0, 1, .motion⟩ : RecordingSegment).record_type = .motion) ∧
    (recordTypeParam (recordTypeFilterValue "motion") = none ∨
     recordTypeParam (recordTypeFilterValue "motion") = some "continuous" ∨
     recordTypeParam (recordTypeFilterValue "motion") = some "motion") :=
  c8_record_type_values ⟨0, 1, .motion⟩ "motion" (by decide)

/-! ## MotionDetector and RecordingController (modelled from the spec)

The backend detector and recording controller are not among the shipped
sources; this section models them from spec sections 4.2, 4.4 and 8.  Time
is discretised into detector check ticks of one second. -/

/-- Modelled from the spec: the typed signals driving the recording state
machine (spec section 9: "typed signals (event-open/event-close)"). -/
inductive MotionSignal where
  | sigOpen
  | sigClose
  | sigNone
deriving DecidableEq, Repr

/-- Modelled from the spec: the RecordingController states of spec
section 4.4 (`Idle`, `Recording`, `Draining` with its post-roll countdown;
finalization is outside these claims). -/
inductive RecState where
  | idle
  | recording
  | draining (remaining : Nat)
deriving DecidableEq, Repr

/-- Modelled from the spec: the RecordingController in motion mode, with
the count of segments it has opened and the identifier of the currently
open segment. -/
structure Controller where
  state : RecState
  segmentsOpened : Nat
  currentSegment : Option Nat
deriving DecidableEq, Repr

/-- Modelled from the spec: one controller transition per tick (spec
section 4.4): event-open from Idle opens a fresh segment; event-close
enters Draining with the post-roll countdown; an event-open during Draining
cancels the drain and stays in Recording on the same segment; the segment
closes only when the countdown has expired. -/
def Controller.step (postRecord : Nat) (c : Controller) (sig : MotionSignal) :
    Controller :=
  match c.state, sig with
  | .idle, .sigOpen =>
      { state := .recording, segmentsOpened := c.segmentsOpened + 1,
        currentSegment := some c.segmentsOpened }
  | .idle, _ => c
  | .recording, .sigClose => { c with state := .draining postRecord }
  | .recording, _ => c
  | .draining _, .sigOpen => { c with state := .recording }
  | .draining n, _ =>
      if n = 0 then
        { state := .idle, segmentsOpened := c.segmentsOpened, currentSegment := none }
      else { c with state := .draining (n - 1) }

/-- Run the controller over a list of signals, one per tick. -/
def Controller.run (postRecord : Nat) (c : Controller) (sigs : List MotionSignal) :
    Controller :=
  sigs.foldl (Controller.step postRecord) c

/-- Modelled from the spec: per-camera MotionDetector state — the length of
the current run of motion-present ticks and whether an event is open (spec
section 4.2). -/
structure DetectorState where
  runLength : Nat
  active : Bool
deriving DecidableEq, Repr

/-- Modelled from the spec: one detector check (spec sections 4.2, 3 and 8
with the glossary: a motion event is confirmed — and event-open emitted —
only once qualifying foreground has persisted for `min_duration_seconds`,
so shorter bursts are filtered as noise; event-close is emitted when the
foreground disappears). -/
def detectStep (minDur : Nat) (d : DetectorState) (present : Bool) :
    DetectorState × MotionSignal :=
  if present then
    if d.active then (⟨d.runLength + 1, true⟩, .sigNone)
    else if minDur ≤ d.runLength + 1 then (⟨d.runLength + 1, true⟩, .sigOpen)
    else (⟨d.runLength + 1, false⟩, .sigNone)
  else
    if d.active then (⟨0, false⟩, .sigClose)
    else (⟨0, false⟩, .sigNone)

/-- Modelled from the spec: one camera's detection-plus-recording pipeline
state. -/
structure Pipeline where
  det : DetectorState
  ctl : Controller
deriving DecidableEq, Repr

/-- Modelled from the spec: feed one tick's motion-presence sample through
the detector and hand the resulting signal to the controller. -/
def pipelineStep (minDur postRecord : Nat) (p : Pipeline) (present : Bool) :
    Pipeline :=
  match detectStep minDur p.det present with
  | (d', sig) => ⟨d', p.ctl.step postRecord sig⟩

/-- Run the pipeline over a sequence of motion-presence samples. -/
def pipelineRun (minDur postRecord : Nat) (p : Pipeline) (input : List Bool) :
    Pipeline :=
  input.foldl (pipelineStep minDur postRecord) p

/-- Modelled from the spec: pipeline start state — detector idle, no
segment ever opened. -/
def pipelineInit : Pipeline := ⟨⟨0, false⟩, ⟨.idle, 0, none⟩⟩

theorem pipeline_true_steps (minDur postRecord : Nat) (k r s : Nat)
    (cur : Option Nat) (h : r + k < minDur) :
    pipelineRun minDur postRecord ⟨⟨r, false⟩, ⟨.idle, s, cur⟩⟩ (List.replicate k true) =
      ⟨⟨r + k, false⟩, ⟨.idle, s, cur⟩⟩ := by
  induction k generalizing r with
  | zero => simp [pipelineRun]
  | succ k ih =>
      have hr1 : ¬ minDur ≤ r + 1 := by omega
      have hstep :
          pipelineStep minDur postRecord ⟨⟨r, false⟩, ⟨.idle, s, cur⟩⟩ true =
            ⟨⟨r + 1, false⟩, ⟨.idle, s, cur⟩⟩ := by
        simp [pipelineStep, detectStep, hr1, Controller.step]
      have hrest := ih (r + 1) (by omega)
      calc pipelineRun minDur postRecord ⟨⟨r, false⟩, ⟨.idle, s, cur⟩⟩
            (List.replicate (k + 1) true)
          = pipelineRun minDur postRecord ⟨⟨r + 1, false⟩, ⟨.idle, s, cur⟩⟩
            (List.replicate k true) := by
            simp only [List.replicate_succ, pipelineRun, List.foldl_cons, hstep]
        _ = ⟨⟨r + 1 + k, false⟩, ⟨.idle, s, cur⟩⟩ := hrest
        _ = ⟨⟨r + (k + 1), false⟩, ⟨.idle, s, cur⟩⟩ := by
            congr 2
            omega

theorem pipeline_false_steps (minDur postRecord : Nat) (m s : Nat)
    (cur : Option Nat) :
    pipelineRun minDur postRecord ⟨⟨0, false⟩, ⟨.idle, s, cur⟩⟩ (List.replicate m false) =
      ⟨⟨0, false⟩, ⟨.idle, s, cur⟩⟩ := by
  induction m with
  | zero => simp [pipelineRun]
  | succ m ih =>
      have hstep :
          pipelineStep minDur postRecord ⟨⟨0, false⟩, ⟨.idle, s, cur⟩⟩ false =
            ⟨⟨0, false⟩, ⟨.idle, s, cur⟩⟩ := by
        simp [pipelineStep, detectStep, Controller.step]
      simp only [List.replicate_succ, pipelineRun, List.foldl_cons, hstep]
      exact ih

/-- Claim C3: a motion burst lasting k ticks with k shorter than the
configured minimum duration, followed by any quiet period, never opens a
recording segment: the controller has opened no segment and stays idle. -/
theorem c3_short_event_no_segment (minDur postRecord k m : Nat)
    (hk : k < minDur) :
    (pipelineRun minDur postRecord pipelineInit
        (List.replicate k true ++ List.replicate m false)).ctl.segmentsOpened = 0 ∧
    (pipelineRun minDur postRecord pipelineInit
        (List.replicate k true ++ List.replicate m false)).ctl.state = .idle := by
  have htrue := pipeline_true_steps minDur postRecord k 0 0 none (by omega)
  have hsplit :
      pipelineRun minDur postRecord pipelineInit
          (List.replicate k true ++ List.replicate m false) =
        pipelineRun minDur postRecord
          (pipelineRun minDur postRecord pipelineInit (List.replicate k true))
          (List.replicate m false) := by
    simp [pipelineRun, List.foldl_append]
  rw [hsplit, pipelineInit] at *
  rw [htrue]
  cases m with
  | zero => simp [pipelineRun]
  | succ m =>
      have hfirst :
          pipelineStep minDur postRecord ⟨⟨0 + k, false⟩, ⟨.idle, 0, none⟩⟩ false =
            ⟨⟨0, false⟩, ⟨.idle, 0, none⟩⟩ := by
        simp [pipelineStep, detectStep, Controller.step]
      have hrest := pipeline_false_steps minDur postRecord m 0 none
      simp only [List.replicate_succ, pipelineRun, List.foldl_cons, hfirst]
      simp only [pipelineRun] at hrest
      rw [hrest]
      exact ⟨rfl, rfl⟩

/-- Witness for C3: a two-tick burst with a three-second minimum duration
opens no segment. -/
theorem c3_short_event_no_segment_witness :
    (pipelineRun 3 10 pipelineInit
        (List.replicate 2 true ++ List.replicate 4 false)).ctl.segmentsOpened = 0 ∧
    (pipelineRun 3 10 pipelineInit
        (List.replicate 2 true ++ List.replicate 4 false)).ctl.state = .idle :=
  c3_short_event_no_segment 3 10 2 4 (by decide)

theorem controller_drain_none_steps (postRecord : Nat) :
    ∀ (k n s : Nat) (cur : Option Nat), k ≤ n →
      Controller.run postRecord ⟨.draining n, s, cur⟩ (List.replicate k .sigNone) =
        ⟨.draining (n - k), s, cur⟩ := by
  intro k
  induction k with
  | zero => intro n s cur _; simp [Controller.run]
  | succ k ih =>
      intro n s cur hk
      have hn : n ≠ 0 := by omega
      have hstep :
          Controller.step postRecord ⟨.draining n, s, cur⟩ .sigNone =
            ⟨.draining (n - 1), s, cur⟩ := by
        simp [Controller.step, hn]
      have hrest := ih (n - 1) s cur (by omega)
      calc Controller.run postRecord ⟨.draining n, s, cur⟩
            (List.replicate (k + 1) .sigNone)
          = Controller.run postRecord ⟨.draining (n - 1), s, cur⟩
            (List.replicate k .sigNone) := by
            simp only [List.replicate_succ, Controller.run, List.foldl_cons, hstep]
        _ = ⟨.draining (n - 1 - k), s, cur⟩ := hrest
        _ = ⟨.draining (n - (k + 1)), s, cur⟩ := by
            congr 2
            omega

/-- Claim C4: while recording, an event-close followed by a new event-open
fewer than `post_record_seconds` ticks later cancels the drain and extends
the same segment: the controller is again in Recording, the open segment
identifier is unchanged and no new segment was opened (the file is never
split). -/
theorem c4_draining_open_extends_segment (postRecord g : Nat) (c : Controller)
    (hrec : c.state = .recording) (hg : g < postRecord) :
    Controller.run postRecord c
        (.sigClose :: (List.replicate g .sigNone ++ [.sigOpen])) =
      { c with state := .recording } ∧
    (Controller.run postRecord c
        (.sigClose :: (List.replicate g .sigNone ++ [.sigOpen]))).currentSegment =
      c.currentSegment ∧
    (Controller.run postRecord c
        (.sigClose :: (List.replicate g .sigNone ++ [.sigOpen]))).segmentsOpened =
      c.segmentsOpened := by
  obtain ⟨st, s, cur⟩ := c
  simp only at hrec
  subst hrec
  have hclose :
      Controller.step postRecord ⟨.recording, s, cur⟩ .sigClose =
        ⟨.draining postRecord, s, cur⟩ := by
    simp [Controller.step]
  have hdrain := controller_drain_none_steps postRecord g postRecord s cur (by omega)
  have hopen :
      Controller.step postRecord ⟨.draining (postRecord - g), s, cur⟩ .sigOpen =
        ⟨.recording, s, cur⟩ := by
    simp [Controller.step]
  have hrun :
      Controller.run postRecord ⟨.recording, s, cur⟩
          (.sigClose :: (List.replicate g .sigNone ++ [.sigOpen])) =
        ⟨.recording, s, cur⟩ := by
    calc Controller.run postRecord ⟨.recording, s, cur⟩
          (.sigClose :: (List.replicate g .sigNone ++ [.sigOpen]))
        = Controller.run postRecord ⟨.draining postRecord, s, cur⟩
          (List.replicate g .sigNone ++ [.sigOpen]) := by
          simp only [Controller.run, List.foldl_cons, hclose]
      _ = Controller.run postRecord
          (Controller.run postRecord ⟨.draining postRecord, s, cur⟩
            (List.replicate g .sigNone)) [.sigOpen] := by
          simp [Controller.run, List.foldl_append]
      _ = Controller.run postRecord ⟨.draining (postRecord - g), s, cur⟩ [.sigOpen] := by
          rw [hdrain]
      _ = ⟨.recording, s, cur⟩ := by
          simp only [Controller.run, List.foldl_cons, List.foldl_nil, hopen]
  exact ⟨hrun, by rw [hrun], by rw [hrun]⟩

/-- Witness for C4: a second event three ticks into a ten-tick drain keeps
segment 4 open and opens no new segment. -/
theorem c4_draining_open_extends_segment_witness :
    Controller.run 10 ⟨.recording, 5, some 4⟩
        (.sigClose :: (List.replicate 3 .sigNone ++ [.sigOpen])) =
      ⟨.recording, 5, some 4⟩ ∧
    (Controller.run 10 ⟨.recording, 5, some 4⟩
        (.sigClose :: (List.replicate 3 .sigNone ++ [.sigOpen]))).currentSegment =
      some 4 ∧
    (Controller.run 10 ⟨.recording, 5, some 4⟩
        (.sigClose :: (List.replicate 3 .sigNone ++ [.sigOpen]))).segmentsOpened = 5 :=
  c4_draining_open_extends_segment 10 3 ⟨.recording, 5, some 4⟩ rfl (by decide)

/-! ## CameraSettingsDialog.jsx: per-camera motion configuration -/

/-- The `mog2` background-model parameter object of the dialog's default
motion configuration, `CameraSettingsDialog.jsx` lines 24-30. -/
structure Mog2Config where
  history : Nat
  var_threshold : Nat
  detect_shadows : Bool
  learning_rate : Int
  n_mixtures : Nat
deriving DecidableEq, Repr

/-- The motion configuration managed by the dialog: the default object of
`CameraSettingsDialog.jsx` lines 22-34 plus the pre/post-roll fields set by
the sliders at lines 274-310 (absent from the defaults, hence optional). -/
structure MotionSettings where
  enabled : Bool
  mog2 : Mog2Config
  min_area : Nat
  min_duration_seconds : Nat
  pre_record_seconds : Option Nat
  post_record_seconds : Option Nat
  exclusion_zones : List String
deriving DecidableEq, Repr

/-- The dialog's default motion configuration,
`CameraSettingsDialog.jsx` lines 22-34. -/
def defaultMotionSettings : MotionSettings :=
  { enabled := false
    mog2 := { history := 500, var_threshold := 16, detect_shadows := true,
              learning_rate := -1, n_mixtures := 5 }
    min_area := 500
    min_duration_seconds := 1
    pre_record_seconds := none
    post_record_seconds := none
    exclusion_zones := [] }

/-- A slider's produced value for position k: values snap to
lo, lo + step, lo + 2·step, … and are clamped at hi, as configured by the
`min`/`max`/`step` props of each Slider in the dialog. -/
def sliderValue (lo hi stp k : Nat) : Nat :=
  min (lo + k * stp) hi

/-- The editing operations the motion tab of the dialog offers, each with
the `min`/`max`/`step` configuration of the corresponding control
(`CameraSettingsDialog.jsx` lines 112-310). -/
inductive DialogOp where
  | setEnabled (b : Bool)
  | setHistory (k : Nat)
  | setVarThreshold (k : Nat)
  | setNMixtures (k : Nat)
  | setDetectShadows (b : Bool)
  | setMinArea (k : Nat)
  | setMinDuration (k : Nat)
  | setPreRecord (k : Nat)
  | setPostRecord (k : Nat)
deriving DecidableEq, Repr

/-- Apply one dialog edit, with each slider's bounds taken from its props:
history 100-1000 step 50, var_threshold 1-50 step 1, n_mixtures 1-10
step 1, min_area 100-5000 step 100, min_duration 0-10 step 1, pre-roll
0-30 step 1, post-roll 0-60 step 5. -/
def applyOp (m : MotionSettings) : DialogOp → MotionSettings
  | .setEnabled b => { m with enabled := b }
  | .setHistory k => { m with mog2 := { m.mog2 with history := sliderValue 100 1000 50 k } }
  | .setVarThreshold k =>
      { m with mog2 := { m.mog2 with var_threshold := sliderValue 1 50 1 k } }
  | .setNMixtures k => { m with mog2 := { m.mog2 with n_mixtures := sliderValue 1 10 1 k } }
  | .setDetectShadows b => { m with mog2 := { m.mog2 with detect_shadows := b } }
  | .setMinArea k => { m with min_area := sliderValue 100 5000 100 k }
  | .setMinDuration k => { m with min_duration_seconds := sliderValue 0 10 1 k }
  | .setPreRecord k => { m with pre_record_seconds := some (sliderValue 0 30 1 k) }
  | .setPostRecord k => { m with post_record_seconds := some (sliderValue 0 60 5 k) }

/-- Every motion configuration producible by the dialog: the defaults
followed by any sequence of edits. -/
def applyOps (ops : List DialogOp) : MotionSettings :=
  ops.foldl applyOp defaultMotionSettings

/-- The bounds claimed for dialog-producible motion configurations. -/
def motionBounds (m : MotionSettings) : Prop :=
  (∀ v, m.pre_record_seconds = some v → v ≤ 30) ∧
  (∀ v, m.post_record_seconds = some v → v ≤ 60 ∧ v % 5 = 0) ∧
  m.min_duration_seconds ≤ 10 ∧
  (100 ≤ m.min_area ∧ m.min_area ≤ 5000 ∧ m.min_area % 100 = 0)

theorem applyOp_bounds (m : MotionSettings) (op : DialogOp)
    (hm : motionBounds m) : motionBounds (applyOp m op) := by
  obtain ⟨h1, h2, h3, h4⟩ := hm
  cases op with
  | setEnabled b => exact ⟨h1, h2, h3, h4⟩
  | setHistory k => exact ⟨h1, h2, h3, h4⟩
  | setVarThreshold k => exact ⟨h1, h2, h3, h4⟩
  | setNMixtures k => exact ⟨h1, h2, h3, h4⟩
  | setDetectShadows b => exact ⟨h1, h2, h3, h4⟩
  | setMinArea k =>
      refine ⟨h1, h2, h3, ?_, ?_, ?_⟩ <;>
        simp [applyOp, sliderValue] <;> omega
  | setMinDuration k =>
      refine ⟨h1, h2, ?_, h4⟩
      simp only [applyOp, sliderValue]
      omega
  | setPreRecord k =>
      refine ⟨?_, h2, h3, h4⟩
      intro v hv
      simp [applyOp, sliderValue] at hv
      omega
  | setPostRecord k =>
      refine ⟨h1, ?_, h3, h4⟩
      intro v hv
      simp [applyOp, sliderValue] at hv
      omega

theorem defaultMotionSettings_bounds : motionBounds defaultMotionSettings := by
  refine ⟨?_, ?_, ?_, ?_⟩ <;> simp [defaultMotionSettings, motionBounds]

/-- Claim C10: every motion configuration producible through the dialog
satisfies pre-roll at most 30 seconds, post-roll at most 60 seconds and a
multiple of 5, minimum duration at most 10 seconds, and minimum area
between 100 and 5000 pixels and a multiple of 100 (lower bounds 0 hold by
the value types). -/
theorem c10_dialog_bounds (ops : List DialogOp) :
    (∀ v, (applyOps ops).pre_record_seconds = some v → v ≤ 30) ∧
    (∀ v, (applyOps ops).post_record_seconds = some v → v ≤ 60 ∧ v % 5 = 0) ∧
    (applyOps ops).min_duration_seconds ≤ 10 ∧
    (100 ≤ (applyOps ops).min_area ∧ (applyOps ops).min_area ≤ 5000 ∧
     (applyOps ops).min_area % 100 = 0) :=
  foldl_inv motionBounds applyOp applyOp_bounds ops defaultMotionSettings
    defaultMotionSettings_bounds

/-- Witness for C10 after concrete edits: pre-roll position 7 gives 7
seconds, post-roll position 9 gives 45 seconds, min-area position 60 clamps
to 5000 pixels. -/
theorem c10_dialog_bounds_witness :
    (applyOps [.setPreRecord 7, .setPostRecord 9, .setMinArea 60]).pre_record_seconds =
      some 7 ∧
    7 ≤ 30 ∧
    (applyOps [.setPreRecord 7, .setPostRecord 9, .setMinArea 60]).post_record_seconds =
      some 45 ∧
    (45 ≤ 60 ∧ 45 % 5 = 0) ∧
    (applyOps [.setPreRecord 7, .setPostRecord 9, .setMinArea 60]).min_duration_seconds ≤ 10 ∧
    (100 ≤ (applyOps [.setPreRecord 7, .setPostRecord 9, .setMinArea 60]).min_area ∧
     (applyOps [.setPreRecord 7, .setPostRecord 9, .setMinArea 60]).min_area ≤ 5000 ∧
     (applyOps [.setPreRecord 7, .setPostRecord 9, .setMinArea 60]).min_area % 100 = 0) :=
  ⟨by decide,
   (c10_dialog_bounds [.setPreRecord 7, .setPostRecord 9, .setMinArea 60]).1 7 (by decide),
   by decide,
   (c10_dialog_bounds [.setPreRecord 7, .setPostRecord 9, .setMinArea 60]).2.1 45 (by decide),
   (c10_dialog_bounds [.setPreRecord 7, .setPostRecord 9, .setMinArea 60]).2.2.1,
   (c10_dialog_bounds [.setPreRecord 7, .setPostRecord 9, .setMinArea 60]).2.2.2⟩

/-! ## Claim C7: the motion configuration's field inventory -/

/-- The keys of the `mog2` background-model parameter object managed by the
dialog, `CameraSettingsDialog.jsx` lines 24-30. -/
def mog2ConfigKeys : List String :=
  ["history", "var_threshold", "detect_shadows", "learning_rate", "n_mixtures"]

/-- The top-level keys of the motion configuration managed by the dialog,
`CameraSettingsDialog.jsx` lines 22-34 together with the pre/post-roll
sliders at lines 274-310. -/
def motionConfigKeys : List String :=
  ["enabled", "mog2", "min_area", "min_duration_seconds",
   "pre_record_seconds", "post_record_seconds", "exclusion_zones"]

/-- Stated from the claim's words, for comparison with the source: the
background-model parameters the claim enumerates (history length, variance
threshold, mixture count, shadow detection). -/
def specClaimedMog2Keys : List String :=
  ["history", "var_threshold", "n_mixtures", "detect_shadows"]

/-- Stated from the claim's words, for comparison with the source: the
claim's top-level motion-configuration items. -/
def specClaimedMotionKeys : List String :=
  ["enabled", "mog2", "min_area", "min_duration_seconds",
   "pre_record_seconds", "post_record_seconds", "exclusion_zones"]

/-- The amended background-model parameter inventory: the four parameters
the claim lists plus the learning rate the code also carries. -/
def amendedMog2Keys : List String :=
  ["history", "var_threshold", "n_mixtures", "detect_shadows", "learning_rate"]

/-- Counterexample to C7 as stated: the code's background-model parameter
object carries a `learning_rate` key that the claim's exact enumeration
omits, so the code's inventory is not a permutation of the claimed one. -/
theorem c7_counterexample :
    "learning_rate" ∈ mog2ConfigKeys ∧
    "learning_rate" ∉ specClaimedMog2Keys ∧
    ¬ mog2ConfigKeys.Perm specClaimedMog2Keys := by
  refine ⟨by decide, by decide, fun hperm => ?_⟩
  have := hperm.mem_iff (a := "learning_rate")
  simp [mog2ConfigKeys, specClaimedMog2Keys] at this

/-- Claim C7 (amended): the motion configuration consists of exactly the
enabled flag, the background-model parameters (history length, variance
threshold, mixture count, shadow detection, learning rate), minimum area,
minimum event duration, pre-roll seconds, post-roll seconds and exclusion
zones. -/
theorem c7_motion_config_fields :
    mog2ConfigKeys.Perm amendedMog2Keys ∧
    motionConfigKeys.Perm specClaimedMotionKeys := by
  exact ⟨by decide, List.Perm.refl _⟩

end Cameras3
